import Mathlib

/-!
# Verification of the water-quality analysis module

Shallow embedding of `src/water_quality.py` (module `water_quality`).
Real-valued quantities are modelled as rationals (`ℚ`), which represent the
decimal literals of the source exactly.  Console printing and chart rendering
are side effects outside the pure contract and are not modelled.
-/

namespace WaterQuality

/-- Status classification of `calculate_wqi` (source lines 87–98): the
`if wqi > 80 / elif wqi > 60 / elif wqi > 40 / else` chain, evaluated
top-down with the first matching branch winning. -/
def wqi_status (wqi : ℚ) : String :=
  if wqi > 80 then "Excellent"
  else if wqi > 60 then "Good"
  else if wqi > 40 then "Fair"
  else "Poor"

/-- `calculate_wqi(turbidity, dissolved_oxygen, temperature=20)` (source
lines 62–110): computes `wqi = (dissolved_oxygen * 0.6 + (10 - turbidity)
* 0.4) * 10` and returns the pair `(wqi, status)`.  The `temperature`
argument is only printed in the source, never used in the computation; it is
kept as an argument to mirror the signature. -/
def calculate_wqi (turbidity dissolved_oxygen temperature : ℚ) : ℚ × String :=
  let wqi : ℚ := (dissolved_oxygen * 0.6 + (10 - turbidity) * 0.4) * 10
  let _ := temperature
  (wqi, wqi_status wqi)

/-- The pH-range check inside `analyze_ph` (source line 40): the chained
comparison `6.5 <= avg_ph <= 8.5` decides whether the mean pH is reported as
within the safe drinking-water range. -/
def ph_in_safe_range (avg_ph : ℚ) : Bool :=
  decide (6.5 ≤ avg_ph ∧ avg_ph ≤ 8.5)

/-- Spec-side classifier: the threshold table of the specification, stated
as disjoint right-open intervals rather than as a top-down chain.  Used only
to compare against the source-side `wqi_status`. -/
def wqi_status_spec (index : ℚ) : String :=
  if index > 80 then "Excellent"
  else if 60 < index ∧ index ≤ 80 then "Good"
  else if 40 < index ∧ index ≤ 60 then "Fair"
  else "Poor"

/-! ## Model of `generate_sample_data`

`generate_sample_data` (source lines 159–187) calls the external NumPy
random-number collaborator: it first sets the global seed to `42` and then
draws four arrays in a fixed order.  NumPy's seeded stream is deterministic;
we model the global RNG as a seed together with the number of values already
consumed, and the two drawing primitives as arbitrary deterministic
functions of the seed, the stream position and their distribution
parameters.  All theorems about `generate_sample_data` are universally
quantified over these drawing functions. -/

/-- State of the NumPy global random generator: the current seed and the
number of stream values consumed since seeding. -/
structure NpState where
  seed : ℕ
  pos : ℕ
deriving DecidableEq

/-- `np.random.seed(s)`: resets the global stream. -/
def np_seed (s : ℕ) (_ : NpState) : NpState := ⟨s, 0⟩

/-- `np.random.normal(mu, sigma, n)` under a deterministic draw function
`f` of the seed, stream position and parameters: returns `n` values and
advances the stream. -/
def np_normal (f : ℕ → ℕ → ℚ → ℚ → ℚ) (mu sigma : ℚ) (n : ℕ)
    (st : NpState) : List ℚ × NpState :=
  ((List.range n).map (fun i => f st.seed (st.pos + i) mu sigma),
    ⟨st.seed, st.pos + n⟩)

/-- `np.random.uniform(low, high, n)` under a deterministic draw function
`g`: returns `n` values and advances the stream. -/
def np_uniform (g : ℕ → ℕ → ℚ → ℚ → ℚ) (low high : ℚ) (n : ℕ)
    (st : NpState) : List ℚ × NpState :=
  ((List.range n).map (fun i => g st.seed (st.pos + i) low high),
    ⟨st.seed, st.pos + n⟩)

/-- The dictionary returned by `generate_sample_data`. -/
structure SampleData where
  ph : List ℚ
  turbidity : List ℚ
  dissolved_oxygen : List ℚ
  temperature : List ℚ
deriving DecidableEq

/-- `generate_sample_data(location="River", days=30)` (source lines
159–187): seeds the global RNG with `42`, then draws
`ph = normal(7.2, 0.3, days)`, `turbidity = uniform(2, 8, days)`,
`dissolved_oxygen = normal(8.5, 1.5, days)`,
`temperature = normal(18, 3, days)` in that order.  `location` is only
printed.  The drawing functions `f` (normal) and `g` (uniform) and the
incoming RNG state are explicit parameters. -/
def generate_sample_data (f g : ℕ → ℕ → ℚ → ℚ → ℚ) (location : String)
    (days : ℕ) (st : NpState) : SampleData × NpState :=
  let _ := location
  let st0 := np_seed 42 st
  let (ph, st1) := np_normal f 7.2 0.3 days st0
  let (turb, st2) := np_uniform g 2 8 days st1
  let (doxy, st3) := np_normal f 8.5 1.5 days st2
  let (temp, st4) := np_normal f 18 3 days st3
  (⟨ph, turb, doxy, temp⟩, st4)

/-! ## Theorems -/

/-- C1: for every turbidity `t`, dissolved oxygen `d` and temperature,
`calculate_wqi` returns exactly the index `(d*0.6 + (10-t)*0.4)*10`, with no
normalization or clamping; in particular the index at `(0, 10)` is `100`
and at `(10, 0)` is `0`, for every temperature. -/
theorem calculate_wqi_formula (t d temp : ℚ) :
    (calculate_wqi t d temp).1 = (d * 0.6 + (10 - t) * 0.4) * 10 ∧
    (calculate_wqi 0 10 temp).1 = 100 ∧
    (calculate_wqi 10 0 temp).1 = 0 := by
  refine ⟨rfl, ?_, ?_⟩ <;> norm_num [calculate_wqi]

/-- C2: the status returned by `calculate_wqi` is a function of the computed
index alone and agrees with the right-open-interval table of the spec; in
particular an index of exactly `80` yields `"Good"`, exactly `60` yields
`"Fair"`, and exactly `40` yields `"Poor"`. -/
theorem calculate_wqi_status_table (t d temp : ℚ) :
    (calculate_wqi t d temp).2 = wqi_status ((calculate_wqi t d temp).1) ∧
    (∀ x : ℚ, wqi_status x = wqi_status_spec x) ∧
    wqi_status 80 = "Good" ∧ wqi_status 60 = "Fair" ∧
    wqi_status 40 = "Poor" := by
  refine ⟨rfl, ?_, by norm_num [wqi_status], by norm_num [wqi_status],
    by norm_num [wqi_status]⟩
  intro x
  unfold wqi_status wqi_status_spec
  by_cases h1 : x > 80
  · rw [if_pos h1, if_pos h1]
  · rw [if_neg h1, if_neg h1]
    by_cases h2 : x > 60
    · rw [if_pos h2, if_pos ⟨h2, le_of_not_lt h1⟩]
    · have hg : ¬(60 < x ∧ x ≤ 80) := fun hc => h2 hc.1
      rw [if_neg h2, if_neg hg]
      by_cases h3 : x > 40
      · rw [if_pos h3, if_pos ⟨h3, le_of_not_lt h2⟩]
      · have hf : ¬(40 < x ∧ x ≤ 60) := fun hc => h3 hc.1
        rw [if_neg h3, if_neg hf]

/-- C3: the pH-range check classifies a mean pH as safe iff
`6.5 ≤ mean ≤ 8.5`; the boundaries `6.5` and `8.5` are safe while `6.49`
and `8.51` are unsafe. -/
theorem ph_in_safe_range_iff (m : ℚ) :
    (ph_in_safe_range m = true ↔ 6.5 ≤ m ∧ m ≤ 8.5) ∧
    ph_in_safe_range 6.5 = true ∧ ph_in_safe_range 8.5 = true ∧
    ph_in_safe_range 6.49 = false ∧ ph_in_safe_range 8.51 = false := by
  refine ⟨?_, by norm_num [ph_in_safe_range], by norm_num [ph_in_safe_range],
    by norm_num [ph_in_safe_range], by norm_num [ph_in_safe_range]⟩
  simp [ph_in_safe_range]

/-- C4: `calculate_wqi` is total: for every triple of rational inputs it
returns a well-defined pair of an index and a status. -/
theorem calculate_wqi_total (t d temp : ℚ) :
    ∃ w : ℚ, ∃ s : String, calculate_wqi t d temp = (w, s) :=
  ⟨(calculate_wqi t d temp).1, (calculate_wqi t d temp).2, rfl⟩

/-- C5: no clamping is applied: there are inputs whose index exceeds `100`
(large dissolved oxygen) and inputs whose index is negative (turbidity above
`10` with no oxygen). -/
theorem calculate_wqi_no_clamping :
    (∃ t d temp : ℚ, (calculate_wqi t d temp).1 > 100) ∧
    (∃ t d temp : ℚ, t > 10 ∧ (calculate_wqi t d temp).1 < 0) := by
  refine ⟨⟨0, 20, 20, ?_⟩, ⟨20, 0, 20, by norm_num, ?_⟩⟩ <;>
    norm_num [calculate_wqi]

/-- C6: the temperature argument does not influence the result: for any two
temperatures the returned index–status pairs coincide. -/
theorem calculate_wqi_temperature_irrelevant (t d temp1 temp2 : ℚ) :
    calculate_wqi t d temp1 = calculate_wqi t d temp2 := rfl

/-- C7: the spec's worked examples: `calculate_wqi 3 8.5 20` returns index
`79` with status `"Good"`, and `calculate_wqi 8 2` (default temperature
`20`) returns index `20` with status `"Poor"`. -/
theorem calculate_wqi_examples :
    calculate_wqi 3 8.5 20 = (79, "Good") ∧
    calculate_wqi 8 2 20 = (20, "Poor") := by
  constructor <;> norm_num [calculate_wqi, wqi_status]

/-- C8: sample generation is reproducible: for every pair of deterministic
drawing functions, any two calls of `generate_sample_data` with the same
`days` return identical data dictionaries, regardless of the `location`
argument and of the incoming RNG state. -/
theorem generate_sample_data_reproducible
    (f g : ℕ → ℕ → ℚ → ℚ → ℚ) (loc1 loc2 : String) (days : ℕ)
    (st1 st2 : NpState) :
    (generate_sample_data f g loc1 days st1).1 =
      (generate_sample_data f g loc2 days st2).1 := rfl

/-- C9: the index is strictly monotone: strictly increasing in dissolved
oxygen for fixed turbidity, and strictly decreasing in turbidity for fixed
dissolved oxygen. -/
theorem calculate_wqi_strict_monotone (t t1 t2 d d1 d2 temp : ℚ)
    (hd : d1 < d2) (ht : t1 < t2) :
    (calculate_wqi t d1 temp).1 < (calculate_wqi t d2 temp).1 ∧
    (calculate_wqi t2 d temp).1 < (calculate_wqi t1 d temp).1 := by
  simp only [calculate_wqi]
  constructor <;> nlinarith

/-- Witness for C9 at concrete inputs. -/
theorem calculate_wqi_strict_monotone_witness :
    (calculate_wqi 1 2 20).1 < (calculate_wqi 1 5 20).1 ∧
    (calculate_wqi 4 2 20).1 < (calculate_wqi 3 2 20).1 :=
  calculate_wqi_strict_monotone 1 3 4 2 2 5 20 (by norm_num) (by norm_num)

/-- C10: the classification is exhaustive and exclusive: the status returned
by `calculate_wqi` is always exactly one of the four strings
`"Excellent"`, `"Good"`, `"Fair"`, `"Poor"`. -/
theorem calculate_wqi_status_exhaustive (t d temp : ℚ) :
    ((calculate_wqi t d temp).2 = "Excellent" ∨
     (calculate_wqi t d temp).2 = "Good" ∨
     (calculate_wqi t d temp).2 = "Fair" ∨
     (calculate_wqi t d temp).2 = "Poor") ∧
    ¬ ("Excellent" = "Good" ∨ "Excellent" = "Fair" ∨ "Excellent" = "Poor" ∨
       "Good" = "Fair" ∨ "Good" = "Poor" ∨ "Fair" = "Poor") := by
  constructor
  · have h : (calculate_wqi t d temp).2 =
        wqi_status ((d * 0.6 + (10 - t) * 0.4) * 10) := rfl
    rw [h]
    unfold wqi_status
    split_ifs <;> simp
  · decide

end WaterQuality
